import Mathlib

/-!
Verification of the request-to-response pipeline of a basic HTTP live-reload
file server.  The definitions below are a shallow embedding of `src/main.rs`
and `src/error.rs`: URI decoding and validation, filesystem path mapping,
the directory-redirect policy, file serving with HTML script injection, and
the uniform translation of errors into HTTP status codes.  The filesystem is
modelled as an explicit state (`FS`), and the two `include_str!` assets that
are not part of the sources (`template.html`, `client_template.html`) appear
as explicit parameters or spec-modelled constants.
-/

namespace HttpLiveReload

/-- The error enum of `src/error.rs` (payloads elided: the code only ever
matches on the variant). -/
inductive Error where
  | Http
  | Hyper
  | Io
  | AddrParse
  | TemplateRender
  | UriNotAbsolute
  | UriNotUtf8
deriving DecidableEq

/-- The `derive(Display)` strings of `src/error.rs`. -/
def errorDisplay : Error → String
  | .Http => "HTTP error"
  | .Hyper => "Hyper error"
  | .Io => "I/O error"
  | .AddrParse => "failed to parse IP address"
  | .TemplateRender => "failed to render template"
  | .UriNotAbsolute => "requested URI is not an absolute path"
  | .UriNotUtf8 => "requested URI is not UTF-8"

/-- The `if let Error::Io(_) = err` test of `transform_error`. -/
def Error.isIo : Error → Bool
  | .Io => true
  | _ => false

/-- HTTP methods (the code only distinguishes GET from the rest). -/
inductive Method where
  | GET
  | POST
  | PUT
  | DELETE
  | HEAD
  | OPTIONS
  | PATCH
deriving DecidableEq

/-- A request URI: `Uri::path()` and `Uri::query()` as exposed by the `http`
crate (the path of a request target is ASCII, so its byte view is its
character view). -/
structure Uri where
  path : String
  query : Option String
deriving DecidableEq

/-- The part of `Request<Body>` the server inspects. -/
structure Request where
  method : Method
  uri : Uri
deriving DecidableEq

/-- The configuration object of `src/main.rs` (the bind address plays no role
in request handling). -/
structure Config where
  ws_port : Nat
  root_dir : String
deriving DecidableEq

/-- The filesystem state a request is resolved against: `Path::is_dir`, and
`File::open` + `metadata` + streaming modelled as reading the file's bytes
(`none` when opening fails: absent, unreadable, or not a regular file). -/
structure FS where
  is_dir : String → Bool
  read : String → Option (List Nat)

/-- An HTTP response: status, headers in emission order, and the byte
sequence the lazily-streamed body yields in order. -/
structure Response where
  status : Nat
  headers : List (String × String)
  body : List Nat
deriving DecidableEq

/-- The handlebars data of `src/main.rs` (`HtmlCfg`). -/
structure HtmlCfg where
  title : String
  body : String

/-- Description of an unsupported request (`struct Unsupported`). -/
structure Unsupported where
  code : Nat
  headers : List (String × String)

/-- Byte view of an ASCII string (raw request paths and the strings built by
the server are ASCII, where codepoint = byte). -/
def strBytes (s : String) : List Nat :=
  s.data.map Char.toNat

/-- The `str::starts_with` test, over the character list. -/
def strStartsWith (s pre : String) : Bool :=
  pre.data.isPrefixOf s.data

/-- The `str::ends_with` test, over the character list. -/
def strEndsWith (s suf : String) : Bool :=
  suf.data.reverse.isPrefixOf s.data.reverse

/-- Trim off the url parameters starting at the first question mark:
`request_path[0..request_path.find(the question mark).unwrap_or(len)]`. -/
def stripQuery (s : String) : String :=
  String.mk (s.data.takeWhile (fun c => c != '?'))

/-- Value of a hexadecimal digit byte, as accepted by the
`percent-encoding` crate. -/
def hexVal (b : Nat) : Option Nat :=
  if 0x30 ≤ b ∧ b ≤ 0x39 then some (b - 0x30)
  else if 0x41 ≤ b ∧ b ≤ 0x46 then some (b - 0x37)
  else if 0x61 ≤ b ∧ b ≤ 0x66 then some (b - 0x57)
  else none

/-- The `percent_decode_str` byte transformation: a percent byte (37)
followed by two hex digits becomes the denoted byte; a percent byte not
followed by two hex digits is passed through and decoding resumes at the
next byte. -/
def percentDecode : List Nat → List Nat
  | [] => []
  | 37 :: h1 :: h2 :: rest =>
    match hexVal h1, hexVal h2 with
    | some a, some b => (a * 16 + b) :: percentDecode rest
    | _, _ => 37 :: percentDecode (h1 :: h2 :: rest)
  | b :: rest => b :: percentDecode rest

/-- Is a byte a UTF-8 continuation byte? -/
def utf8Cont (b : Nat) : Bool :=
  0x80 ≤ b && b ≤ 0xBF

/-- Strict UTF-8 decoding of a byte sequence into characters, with the exact
accepting ranges of Rust's `str::from_utf8` (rejecting overlong encodings,
surrogates and values above 0x10FFFF); `none` models `Utf8Error`. -/
def utf8Decode : List Nat → Option (List Char)
  | [] => some []
  | b0 :: rest =>
    if b0 ≤ 0x7F then
      (utf8Decode rest).map (fun cs => Char.ofNat b0 :: cs)
    else if 0xC2 ≤ b0 ∧ b0 ≤ 0xDF then
      match rest with
      | b1 :: rest2 =>
        if utf8Cont b1 then
          (utf8Decode rest2).map
            (fun cs => Char.ofNat ((b0 - 0xC0) * 0x40 + (b1 - 0x80)) :: cs)
        else none
      | [] => none
    else if 0xE0 ≤ b0 ∧ b0 ≤ 0xEF then
      match rest with
      | b1 :: b2 :: rest2 =>
        if (if b0 = 0xE0 then 0xA0 ≤ b1 && b1 ≤ 0xBF
            else if b0 = 0xED then 0x80 ≤ b1 && b1 ≤ 0x9F
            else utf8Cont b1) && utf8Cont b2 then
          (utf8Decode rest2).map
            (fun cs => Char.ofNat
              ((b0 - 0xE0) * 0x1000 + (b1 - 0x80) * 0x40 + (b2 - 0x80)) :: cs)
        else none
      | _ => none
    else if 0xF0 ≤ b0 ∧ b0 ≤ 0xF4 then
      match rest with
      | b1 :: b2 :: b3 :: rest2 =>
        if (if b0 = 0xF0 then 0x90 ≤ b1 && b1 ≤ 0xBF
            else if b0 = 0xF4 then 0x80 ≤ b1 && b1 ≤ 0x8F
            else utf8Cont b1) && utf8Cont b2 && utf8Cont b3 then
          (utf8Decode rest2).map
            (fun cs => Char.ofNat
              ((b0 - 0xF0) * 0x40000 + (b1 - 0x80) * 0x1000
                + (b2 - 0x80) * 0x40 + (b3 - 0x80)) :: cs)
        else none
      | _ => none
    else none

/-- UTF-8 decoding into a string (`Cow<str>` from `decode_utf8`). -/
def utf8DecodeStr (l : List Nat) : Option String :=
  (utf8Decode l).map String.mk

/-- Rust's `PathBuf::push`: an absolute argument replaces the whole path;
otherwise a separator is interposed unless the buffer is empty or already
ends with a separator. -/
def pathPush (base child : String) : String :=
  if strStartsWith child "/" then child
  else if base.data.getLast? = some '/' ∨ base = "" then base ++ child
  else base ++ "/" ++ child

/-- Characters of a path's final component (ignoring trailing separators),
computed from the back. -/
def file_name_chars (cs : List Char) : List Char :=
  ((cs.reverse.dropWhile (fun c => c == '/')).takeWhile (fun c => c != '/')).reverse

/-- Rust's `Path::file_name`: the final component (ignoring trailing
separators), `none` when there is none or it is the parent-dir component.
(The model covers paths whose final component is a plain name.) -/
def file_name (p : String) : Option String :=
  if file_name_chars p.data = [] ∨ file_name_chars p.data = ['.', '.'] then none
  else some (String.mk (file_name_chars p.data))

/-- Rust's `Path::extension`: the part of the file name after the last dot,
`none` when the name has no dot besides a leading one. -/
def extension (p : String) : Option String :=
  match file_name p with
  | none => none
  | some n =>
    match n.data with
    | [] => none
    | _ :: tail =>
      if tail.contains '.' then
        some (String.mk ((n.data.reverse.takeWhile (fun c => c != '.')).reverse))
      else none

/-- ASCII lowercasing of one character. -/
def asciiLower (c : Char) : Char :=
  if 'A' ≤ c ∧ c ≤ 'Z' then Char.ofNat (c.toNat + 32) else c

/-- Rust's `str::eq_ignore_ascii_case`. -/
def eq_ignore_ascii_case (a b : String) : Bool :=
  a.data.map asciiLower == b.data.map asciiLower

/-- The `matches!(path.extension(), Some(ext) if ext.eq_ignore_ascii_case("html"))`
test of `respond_with_file`. -/
def is_html_path (path : String) : Bool :=
  match extension path with
  | some ext => eq_ignore_ascii_case ext "html"
  | none => false

/-- Extension-to-MIME table of the external `mime_guess` collaborator,
restricted to common extensions (everything else falls back to
`application/octet-stream`, as `first_or_octet_stream` does). -/
def mime_from_ext : String → Option String
  | "html" => some "text/html"
  | "htm" => some "text/html"
  | "css" => some "text/css"
  | "js" => some "application/javascript"
  | "json" => some "application/json"
  | "png" => some "image/png"
  | "jpg" => some "image/jpeg"
  | "jpeg" => some "image/jpeg"
  | "gif" => some "image/gif"
  | "svg" => some "image/svg+xml"
  | "txt" => some "text/plain"
  | _ => none

/-- The `file_path_mime` function: extension-based MIME lookup
(case-insensitive), defaulting to `application/octet-stream`. -/
def file_path_mime (file_path : String) : String :=
  match extension file_path with
  | some ext => (mime_from_ext (String.mk (ext.data.map asciiLower))).getD
      "application/octet-stream"
  | none => "application/octet-stream"

/-- Left brace character (written via its code point). -/
def lbrace : Char := Char.ofNat 123

/-- Right brace character (written via its code point). -/
def rbrace : Char := Char.ofNat 125

/-- First occurrence of `pat` in a character list: the part before it and
the part after it, or `none` when `pat` does not occur. -/
def splitOnce (pat : List Char) : List Char → Option (List Char × List Char)
  | [] => if pat.isEmpty then some ([], []) else none
  | c :: rest =>
    if pat.isPrefixOf (c :: rest) then some ([], (c :: rest).drop pat.length)
    else (splitOnce pat rest).map (fun pr => (c :: pr.1, pr.2))

/-- The double-braced `title` placeholder. -/
def titlePat : List Char :=
  [lbrace, lbrace] ++ "title".data ++ [rbrace, rbrace]

/-- The double-braced `body` placeholder. -/
def bodyPat : List Char :=
  [lbrace, lbrace] ++ "body".data ++ [rbrace, rbrace]

/-- Modelled from the spec: the external templating collaborator (§6) takes
a template plus a `title`/`body` pair and produces a rendered HTML string or
a rendering failure.  Rendering substitutes the two double-braced
placeholders; a template in which they do not occur (in order) is our model
of a `TemplateRender` failure. -/
def render_template (tpl : String) (cfg : HtmlCfg) : Except Error String :=
  match splitOnce titlePat tpl.data with
  | none => .error .TemplateRender
  | some (pre, rest) =>
    match splitOnce bodyPat rest with
    | none => .error .TemplateRender
    | some (mid, post) =>
      .ok (String.mk (pre ++ cfg.title.data ++ mid ++ cfg.body.data ++ post))

/-- Modelled from the spec: the `include_str!("template.html")` asset is not
under `src/`; §4.5 describes it as a fixed page rendered with `title` = the
status code and text and `body` = the empty string. -/
def HTML_TEMPLATE : String :=
  "<html><head><title>\x7b\x7btitle\x7d\x7d</title></head><body>\x7b\x7bbody\x7d\x7d</body></html>"

/-- The `render_html` function; the template constant is threaded as a
parameter because the asset is external to the sources. -/
def render_html (tpl : String) (cfg : HtmlCfg) : Except Error String :=
  render_template tpl cfg

/-- Display of an `http::StatusCode` (`format!("{}", status)`): the numeric
code followed by its canonical reason phrase. -/
def statusDisplay : Nat → String
  | 200 => "200 OK"
  | 302 => "302 Found"
  | 404 => "404 Not Found"
  | 405 => "405 Method Not Allowed"
  | 500 => "500 Internal Server Error"
  | n => toString n

/-- The `render_error_html` function: an HTML page whose title is the
status display and whose body is empty. -/
def render_error_html (tpl : String) (status : Nat) : Except Error String :=
  render_html tpl { title := statusDisplay status, body := String.mk [] }

/-- The `html_str_to_response_with_headers` function: the given headers,
then `Content-Length` = the body's byte length and
`Content-Type: text/html`, with the rendered HTML as body. -/
def html_str_to_response_with_headers (body : String) (status : Nat)
    (headers : List (String × String)) : Except Error Response :=
  .ok { status := status
        headers := headers ++
          [("content-length", toString (strBytes body).length),
           ("content-type", "text/html")]
        body := strBytes body }

/-- The `make_error_response_from_code_and_headers` function. -/
def make_error_response_from_code_and_headers (tpl : String) (status : Nat)
    (headers : List (String × String)) : Except Error Response :=
  match render_error_html tpl status with
  | .error e => .error e
  | .ok body => html_str_to_response_with_headers body status headers

/-- The `make_error_response_from_code` function. -/
def make_error_response_from_code (tpl : String) (status : Nat) :
    Except Error Response :=
  make_error_response_from_code_and_headers tpl status []

/-- The `transform_error` function: an `Ok` response passes through; an
`Io` error becomes the 404 page and any other error the 500 page; if even
building that page fails, a last-ditch plaintext response is emitted via
`Response::new`, whose status is the builder default 200. -/
def transform_error (tpl : String) (resp : Except Error Response) : Response :=
  match
    (match resp with
     | .ok r => (.ok r : Except Error Response)
     | .error err =>
       make_error_response_from_code tpl (if err.isIo then 404 else 500)) with
  | .ok r => r
  | .error e =>
    { status := 200
      headers := []
      body := strBytes ("unexpected internal error: " ++ errorDisplay e) }

/-- The `local_path_for_request` function: strip the query, percent-decode,
require UTF-8 (`UriNotUtf8`), require a leading slash (`UriNotAbsolute`),
and push the remainder onto the root directory. -/
def local_path_for_request (uri : Uri) (root_dir : String) :
    Except Error String :=
  let request_path := stripQuery uri.path
  match utf8DecodeStr (percentDecode (strBytes request_path)) with
  | none => .error .UriNotUtf8
  | some decoded =>
    if strStartsWith decoded "/" then
      .ok (pathPush root_dir (String.mk (decoded.data.drop 1)))
    else .error .UriNotAbsolute

/-- The `local_path_with_maybe_index` function: resolve, then append
`index.html` when the resolved path is a directory. -/
def local_path_with_maybe_index (fs : FS) (uri : Uri) (root_dir : String) :
    Except Error String :=
  (local_path_for_request uri root_dir).map (fun p =>
    if fs.is_dir p then pathPush p "index.html" else p)

/-- Query-string suffix of the redirect location (`?` + query if present). -/
def querySuffix : Option String → String
  | some q => "?" ++ q
  | none => ""

/-- The `try_dir_redirect` function: for a raw path without trailing slash
that resolves to a directory, a 302 response whose `Location` is the raw
path + `/` + the original query, with an empty body. -/
def try_dir_redirect (fs : FS) (req : Request) (root_dir : String) :
    Except Error (Option Response) :=
  if strEndsWith req.uri.path "/" then .ok none
  else
    match local_path_for_request req.uri root_dir with
    | .error e => .error e
    | .ok path =>
      if !fs.is_dir path then .ok none
      else
        .ok (some
          { status := 302
            headers := [("location",
              req.uri.path ++ "/" ++ querySuffix req.uri.query)]
            body := [] })

/-- The `respond_with_file` function.  `client_js` stands for the rendered
`include_str!("client_template.html")` injection script (an asset not under
`src/`) as a function of the live-reload port; for an `html` extension
(ASCII-case-insensitively) its bytes are chained after the file and counted
in `Content-Length`. -/
def respond_with_file (client_js : Nat → List Nat) (fs : FS) (path : String)
    (config : Config) : Except Error Response :=
  let mime_type := file_path_mime path
  match fs.read path with
  | none => .error .Io
  | some content =>
    let lenBody :=
      if is_html_path path then
        (content.length + (client_js config.ws_port).length,
         content ++ client_js config.ws_port)
      else (content.length, content)
    .ok { status := 200
          headers := [("content-length", toString lenBody.1),
                      ("content-type", mime_type)]
          body := lenBody.2 }

/-- The `serve_file` function: redirect check first, then resolution with
index substitution, then the file response. -/
def serve_file (client_js : Nat → List Nat) (fs : FS) (req : Request)
    (config : Config) : Except Error Response :=
  match try_dir_redirect fs req config.root_dir with
  | .error e => .error e
  | .ok (some redir_resp) => .ok redir_resp
  | .ok none =>
    match local_path_with_maybe_index fs req.uri config.root_dir with
    | .error e => .error e
    | .ok p => respond_with_file client_js fs p config

/-- The `get_unsupported_request_message` function: any non-GET method is
rejected with 405 and an `Allow: GET` header. -/
def get_unsupported_request_message (req : Request) : Option Unsupported :=
  if req.method ≠ Method.GET then
    some { code := 405, headers := [("allow", "GET")] }
  else none

/-- The `handle_unsupported_request` function. -/
def handle_unsupported_request (tpl : String) (req : Request) :
    Option (Except Error Response) :=
  (get_unsupported_request_message req).map (fun unsup =>
    make_error_response_from_code_and_headers tpl unsup.code unsup.headers)

/-- The `serve_or_error` function: method gate, then file serving. -/
def serve_or_error (tpl : String) (client_js : Nat → List Nat) (fs : FS)
    (config : Config) (req : Request) : Except Error Response :=
  match handle_unsupported_request tpl req with
  | some resp => resp
  | none => serve_file client_js fs req config

/-- The `serve` function: handle the request and translate internal errors
into error responses. -/
def serve (tpl : String) (client_js : Nat → List Nat) (fs : FS)
    (config : Config) (req : Request) : Response :=
  transform_error tpl (serve_or_error tpl client_js fs config req)

/-- Header lookup in a response (first match). -/
def getHeader (r : Response) (name : String) : Option String :=
  (r.headers.find? (fun h => h.1 == name)).map (fun h => h.2)

/-- Splitting a character list at the path separator. -/
def splitSlash : List Char → List (List Char)
  | [] => [[]]
  | c :: rest =>
    if c = '/' then [] :: splitSlash rest
    else
      match splitSlash rest with
      | [] => [[c]]
      | g :: gs => (c :: g) :: gs

/-- Lexical normalization of an absolute path's components: drop empty and
current-dir components, let a parent-dir component pop the previous one. -/
def normalizeComps (acc : List String) : List String → List String
  | [] => acc.reverse
  | c :: rest =>
    if c = "" ∨ c = "." then normalizeComps acc rest
    else if c = ".." then normalizeComps (acc.drop 1) rest
    else normalizeComps (c :: acc) rest

/-- Joining components with the path separator. -/
def joinSlash : List String → String
  | [] => ""
  | [s] => s
  | s :: rest => s ++ "/" ++ joinSlash rest

/-- Lexical normalization of an absolute path. -/
def normalizePath (p : String) : String :=
  "/" ++ joinSlash (normalizeComps [] ((splitSlash p.data).map String.mk))

/-- Is `p` the directory `root` itself or located beneath it? -/
def startsWithDir (root p : String) : Bool :=
  p == root || strStartsWith p (root ++ "/")


/-! ### Helper lemmas -/

/-- Appending strings appends their character lists. -/
theorem data_append (a b : String) : (a ++ b).data = a.data ++ b.data := rfl

/-- A list whose last element is `c` reverses to a list headed by `c`. -/
theorem reverse_eq_cons_of_getLast? {l : List Char} {c : Char}
    (h : l.getLast? = some c) : ∃ t, l.reverse = c :: t := by
  cases hr : l.reverse with
  | nil =>
    have hl : l = [] := by simpa using congrArg List.reverse hr
    rw [hl] at h
    cases h
  | cons d t =>
    have hl : l = (d :: t).reverse := by simpa using congrArg List.reverse hr
    rw [hl, List.reverse_cons, List.getLast?_concat] at h
    cases h
    exact ⟨t, rfl⟩

/-- Pushing the relative name `index.html` never replaces the base path. -/
theorem pathPush_index_eq (p : String) :
    pathPush p "index.html" =
      if p.data.getLast? = some '/' ∨ p = "" then p ++ "index.html"
      else p ++ "/" ++ "index.html" := by
  rw [pathPush, if_neg]
  intro hc
  cases hc

/-- The file name of a directory path extended with `index.html`. -/
theorem file_name_chars_append_index (p : String)
    (ht : p.data.reverse = [] ∨ ∃ t, p.data.reverse = '/' :: t) :
    file_name_chars (p ++ "index.html").data = "index.html".data := by
  rw [file_name_chars, data_append, List.reverse_append]
  rcases ht with h | ⟨t, h⟩ <;> rw [h] <;> rfl

/-- The file name of a path extended with a separator and `index.html`. -/
theorem file_name_chars_append_slash_index (p : String) :
    file_name_chars (p ++ "/" ++ "index.html").data = "index.html".data := by
  rw [file_name_chars, data_append, data_append, List.reverse_append,
    List.reverse_append]
  rfl

/-- `Path::push("index.html")` always yields a path whose file name is
`index.html`. -/
theorem file_name_pathPush_index (p : String) :
    file_name (pathPush p "index.html") = some "index.html" := by
  rw [pathPush_index_eq]
  by_cases h2 : p.data.getLast? = some '/' ∨ p = ""
  · rw [if_pos h2]
    have hrev : p.data.reverse = [] ∨ ∃ t, p.data.reverse = '/' :: t := by
      rcases h2 with h | h
      · exact Or.inr (reverse_eq_cons_of_getLast? h)
      · rw [h]
        exact Or.inl rfl
    rw [file_name, file_name_chars_append_index p hrev]
    rfl
  · rw [if_neg h2, file_name, file_name_chars_append_slash_index]
    rfl

/-- `Path::push("index.html")` always yields a path with extension `html`. -/
theorem extension_pathPush_index (p : String) :
    extension (pathPush p "index.html") = some "html" := by
  rw [extension, file_name_pathPush_index]
  rfl

/-- A pushed `index.html` path is recognized as HTML. -/
theorem is_html_pathPush_index (p : String) :
    is_html_path (pathPush p "index.html") = true := by
  rw [is_html_path, extension_pathPush_index]
  rfl

/-- A pushed `index.html` path gets MIME type `text/html`. -/
theorem mime_pathPush_index (p : String) :
    file_path_mime (pathPush p "index.html") = "text/html" := by
  rw [file_path_mime, extension_pathPush_index]
  rfl

/-! ### Witness fixtures -/

/-- A filesystem with a single uppercase-extension HTML file. -/
def fsA : FS :=
  { is_dir := fun _ => false
    read := fun p => if p = "/srv/a.HTML" then some [10, 11] else none }

/-- A filesystem with a `docs` directory holding an `index.html`. -/
def fsB : FS :=
  { is_dir := fun p => p == "/srv/docs" || p == "/srv/docs/"
    read := fun p => if p = "/srv/docs/index.html" then some [72, 105] else none }

/-- A stand-in for the rendered live-reload injection script bytes. -/
def cjA : Nat → List Nat := fun _ => [60, 33]

/-- An injection-script stand-in that contributes no bytes. -/
def cjZero : Nat → List Nat := fun _ => []

/-- A template without the required placeholders, on which rendering fails. -/
def tplBad : String := "<p>\x7b\x7boops</p>"

/-! ### Claims -/

/-- C1: the spec's invariant says every resolved path stays rooted under
`Config.root_dir`.  The code violates it: `PathBuf::push` lets a decoded
path beginning with two slashes replace the root entirely, and a
percent-decoded `..` is joined without sanitization, so the resolved path
escapes the root.  This theorem evaluates `local_path_for_request` at the
two failing inputs. -/
theorem c1_resolution_escapes_root :
    local_path_for_request ⟨"//etc/passwd", none⟩ "/srv" = .ok "/etc/passwd"
    ∧ startsWithDir "/srv" "/etc/passwd" = false
    ∧ local_path_for_request ⟨"/%2E%2E/secret", none⟩ "/srv" = .ok "/srv/../secret"
    ∧ normalizePath "/srv/../secret" = "/secret"
    ∧ startsWithDir "/srv" (normalizePath "/srv/../secret") = false :=
  ⟨rfl, rfl, rfl, rfl, rfl⟩

/-- C2: for every successfully served file, `Content-Length` is the file
length plus the injected script length exactly when the extension is `html`
(ASCII-case-insensitively), and the file length alone otherwise; the body is
the file bytes followed by the injected bytes in the HTML case. -/
theorem c2_content_length (client_js : Nat → List Nat) (fs : FS) (path : String)
    (config : Config) (content : List Nat) (h : fs.read path = some content) :
    respond_with_file client_js fs path config =
      .ok { status := 200
            headers := [("content-length",
                toString (content.length +
                  (if is_html_path path then (client_js config.ws_port).length
                   else 0))),
              ("content-type", file_path_mime path)]
            body := content ++
              (if is_html_path path then client_js config.ws_port else []) } := by
  by_cases hh : is_html_path path <;> simp [respond_with_file, h, hh]

/-- Witness for C2 at a concrete filesystem, uppercase `HTML` extension. -/
theorem c2_content_length_witness :
    fsA.read "/srv/a.HTML" = some [10, 11]
    ∧ respond_with_file cjA fsA "/srv/a.HTML" ⟨8090, "/srv"⟩ =
      .ok { status := 200
            headers := [("content-length",
                toString (([10, 11] : List Nat).length +
                  (if is_html_path "/srv/a.HTML" then (cjA 8090).length else 0))),
              ("content-type", file_path_mime "/srv/a.HTML")]
            body := [10, 11] ++
              (if is_html_path "/srv/a.HTML" then cjA 8090 else []) } :=
  ⟨rfl, c2_content_length cjA fsA "/srv/a.HTML" ⟨8090, "/srv"⟩ [10, 11] rfl⟩

/-- C5: `transform_error` classifies every surfaced error exactly once: the
`Io` variant yields a 404 response and every other variant a 500 response
(an `Ok` response passes through unchanged). -/
theorem c5_error_classification (e : Error) (r : Response) :
    (transform_error HTML_TEMPLATE (.error e)).status = (if e.isIo then 404 else 500)
    ∧ transform_error HTML_TEMPLATE (.ok r) = r := by
  refine ⟨?_, rfl⟩
  cases e <;> rfl

/-- C8: a decoded path that does not start with a slash makes resolution
fail with `UriNotAbsolute` (no candidate path is joined onto the root). -/
theorem c8_uri_not_absolute (uri : Uri) (root_dir : String) (decoded : String)
    (hdec : utf8DecodeStr (percentDecode (strBytes (stripQuery uri.path))) =
      some decoded)
    (habs : strStartsWith decoded "/" = false) :
    local_path_for_request uri root_dir = .error .UriNotAbsolute := by
  simp [local_path_for_request, hdec, habs]

/-- Witness for C8 on the relative request target `foo`. -/
theorem c8_uri_not_absolute_witness :
    utf8DecodeStr (percentDecode (strBytes (stripQuery "foo"))) = some "foo"
    ∧ strStartsWith "foo" "/" = false
    ∧ local_path_for_request ⟨"foo", none⟩ "/srv" = .error .UriNotAbsolute :=
  ⟨rfl, rfl, c8_uri_not_absolute ⟨"foo", none⟩ "/srv" "foo" rfl rfl⟩

/-- C9: when even building the rendered error page fails, `transform_error`
falls back to `Response::new` with a plaintext body carrying the failure
description — and the status is the builder default 200 OK, not an error
status. -/
theorem c9_last_ditch_fallback (tpl : String) (e : Error)
    (hfail : render_template tpl
        { title := statusDisplay (if e.isIo then 404 else 500), body := String.mk [] } =
      .error .TemplateRender) :
    transform_error tpl (.error e) =
      { status := 200
        headers := []
        body := strBytes ("unexpected internal error: " ++
          errorDisplay .TemplateRender) } := by
  simp [transform_error, make_error_response_from_code,
    make_error_response_from_code_and_headers, render_error_html, render_html, hfail]

/-- Witness for C9 on a template missing its placeholders. -/
theorem c9_last_ditch_fallback_witness :
    render_template tplBad
        { title := statusDisplay (if Error.isIo .Io then 404 else 500)
          body := String.mk [] } = .error .TemplateRender
    ∧ transform_error tplBad (.error .Io) =
      { status := 200
        headers := []
        body := strBytes ("unexpected internal error: " ++
          errorDisplay .TemplateRender) } :=
  ⟨rfl, c9_last_ditch_fallback tplBad .Io rfl⟩

/-- A read function that never yields file bytes. -/
def noRead : String → Option (List Nat) := fun _ => none

/-- C3: a GET request whose raw path lacks a trailing slash and resolves to
an existing directory is answered with exactly 302, `Location` = original
path + `/` (+ `?` + original query when present), and an empty body; the
response is the same for every read function, so no file bytes are read. -/
theorem c3_dir_redirect (tpl : String) (client_js : Nat → List Nat)
    (isdir : String → Bool) (rd : String → Option (List Nat)) (config : Config)
    (req : Request) (p : String)
    (hm : req.method = Method.GET)
    (hslash : strEndsWith req.uri.path "/" = false)
    (hres : local_path_for_request req.uri config.root_dir = .ok p)
    (hdir : isdir p = true) :
    serve_or_error tpl client_js ⟨isdir, rd⟩ config req =
      .ok { status := 302
            headers := [("location",
              req.uri.path ++ "/" ++ querySuffix req.uri.query)]
            body := [] } := by
  simp [serve_or_error, handle_unsupported_request, get_unsupported_request_message,
    hm, serve_file, try_dir_redirect, hslash, hres, hdir]

/-- Witness for C3: `GET /docs?a=b` against root `/srv` where `/srv/docs` is
a directory. -/
theorem c3_dir_redirect_witness :
    (⟨Method.GET, ⟨"/docs", some "a=b"⟩⟩ : Request).method = Method.GET
    ∧ strEndsWith "/docs" "/" = false
    ∧ local_path_for_request ⟨"/docs", some "a=b"⟩ "/srv" = .ok "/srv/docs"
    ∧ fsB.is_dir "/srv/docs" = true
    ∧ serve_or_error HTML_TEMPLATE cjA ⟨fsB.is_dir, noRead⟩ ⟨8090, "/srv"⟩
        ⟨Method.GET, ⟨"/docs", some "a=b"⟩⟩ =
      .ok { status := 302
            headers := [("location", "/docs" ++ "/" ++ querySuffix (some "a=b"))]
            body := [] } :=
  ⟨rfl, rfl, rfl, rfl,
    c3_dir_redirect HTML_TEMPLATE cjA fsB.is_dir noRead ⟨8090, "/srv"⟩
      ⟨Method.GET, ⟨"/docs", some "a=b"⟩⟩ "/srv/docs" rfl rfl rfl rfl⟩

/-- C4: a GET request whose path ends in a slash and resolves to a directory
holding an `index.html` gets no redirect: the response is 200 with the
index file's bytes followed by the injected script (it is HTML), with the
injected length counted in `Content-Length`. -/
theorem c4_index_served (tpl : String) (client_js : Nat → List Nat) (fs : FS)
    (config : Config) (req : Request) (p : String) (content : List Nat)
    (hm : req.method = Method.GET)
    (hslash : strEndsWith req.uri.path "/" = true)
    (hres : local_path_for_request req.uri config.root_dir = .ok p)
    (hdir : fs.is_dir p = true)
    (hread : fs.read (pathPush p "index.html") = some content) :
    serve_or_error tpl client_js fs config req =
      .ok { status := 200
            headers := [("content-length",
                toString (content.length + (client_js config.ws_port).length)),
              ("content-type", "text/html")]
            body := content ++ client_js config.ws_port } := by
  simp [serve_or_error, handle_unsupported_request, get_unsupported_request_message,
    hm, serve_file, try_dir_redirect, hslash, local_path_with_maybe_index, hres,
    Except.map, hdir, respond_with_file, hread, is_html_pathPush_index,
    mime_pathPush_index]

/-- Witness for C4: `GET /docs/` against root `/srv` with
`/srv/docs/index.html` present. -/
theorem c4_index_served_witness :
    (⟨Method.GET, ⟨"/docs/", none⟩⟩ : Request).method = Method.GET
    ∧ strEndsWith "/docs/" "/" = true
    ∧ local_path_for_request ⟨"/docs/", none⟩ "/srv" = .ok "/srv/docs/"
    ∧ fsB.is_dir "/srv/docs/" = true
    ∧ fsB.read (pathPush "/srv/docs/" "index.html") = some [72, 105]
    ∧ serve_or_error HTML_TEMPLATE cjA fsB ⟨8090, "/srv"⟩
        ⟨Method.GET, ⟨"/docs/", none⟩⟩ =
      .ok { status := 200
            headers := [("content-length",
                toString (([72, 105] : List Nat).length + (cjA 8090).length)),
              ("content-type", "text/html")]
            body := [72, 105] ++ cjA 8090 } :=
  ⟨rfl, rfl, rfl, rfl, rfl,
    c4_index_served HTML_TEMPLATE cjA fsB ⟨8090, "/srv"⟩
      ⟨Method.GET, ⟨"/docs/", none⟩⟩ "/srv/docs/" [72, 105] rfl rfl rfl rfl rfl⟩

/-- C6: any request whose method is not GET is answered with exactly 405
and an `Allow: GET` header, independently of the path and the filesystem:
the handler short-circuits to the unsupported-request response before any
path resolution or file serving. -/
theorem c6_non_get_rejected (client_js : Nat → List Nat) (fs : FS)
    (config : Config) (req : Request) (hm : req.method ≠ Method.GET) :
    serve_or_error HTML_TEMPLATE client_js fs config req =
      make_error_response_from_code_and_headers HTML_TEMPLATE 405 [("allow", "GET")]
    ∧ ∃ r, serve_or_error HTML_TEMPLATE client_js fs config req = .ok r
        ∧ r.status = 405 ∧ getHeader r "allow" = some "GET" := by
  have h1 : serve_or_error HTML_TEMPLATE client_js fs config req =
      make_error_response_from_code_and_headers HTML_TEMPLATE 405
        [("allow", "GET")] := by
    simp [serve_or_error, handle_unsupported_request,
      get_unsupported_request_message, hm]
  refine ⟨h1, ?_⟩
  rw [h1]
  exact ⟨_, rfl, rfl, rfl⟩

/-- Witness for C6: a POST request. -/
theorem c6_non_get_rejected_witness :
    (⟨Method.POST, ⟨"/x", none⟩⟩ : Request).method ≠ Method.GET
    ∧ (serve_or_error HTML_TEMPLATE cjZero fsA ⟨8090, "/srv"⟩
          ⟨Method.POST, ⟨"/x", none⟩⟩ =
        make_error_response_from_code_and_headers HTML_TEMPLATE 405
          [("allow", "GET")]
      ∧ ∃ r, serve_or_error HTML_TEMPLATE cjZero fsA ⟨8090, "/srv"⟩
            ⟨Method.POST, ⟨"/x", none⟩⟩ = .ok r
          ∧ r.status = 405 ∧ getHeader r "allow" = some "GET") :=
  ⟨by decide,
    c6_non_get_rejected cjZero fsA ⟨8090, "/srv"⟩ ⟨Method.POST, ⟨"/x", none⟩⟩
      (by decide)⟩

/-- C7: a request whose percent-decoded path is not valid UTF-8 makes
resolution fail with `UriNotUtf8`, and the request is finally answered
with a 500 response. -/
theorem c7_non_utf8_500 (client_js : Nat → List Nat) (fs : FS) (config : Config)
    (req : Request) (hm : req.method = Method.GET)
    (hdec : utf8DecodeStr (percentDecode (strBytes (stripQuery req.uri.path))) =
      none) :
    local_path_for_request req.uri config.root_dir = .error .UriNotUtf8
    ∧ (serve HTML_TEMPLATE client_js fs config req).status = 500 := by
  have hres : local_path_for_request req.uri config.root_dir =
      .error .UriNotUtf8 := by
    simp [local_path_for_request, hdec]
  refine ⟨hres, ?_⟩
  have hsf : serve_file client_js fs req config = .error .UriNotUtf8 := by
    by_cases hs : strEndsWith req.uri.path "/"
    · simp [serve_file, try_dir_redirect, hs, local_path_with_maybe_index,
        Except.map, hres]
    · simp [serve_file, try_dir_redirect, hs, hres]
  have hso : serve_or_error HTML_TEMPLATE client_js fs config req =
      .error .UriNotUtf8 := by
    simp [serve_or_error, handle_unsupported_request,
      get_unsupported_request_message, hm, hsf]
  rw [serve, hso]
  rfl

/-- Witness for C7: `GET /%FF`, whose decoded byte 255 is not UTF-8. -/
theorem c7_non_utf8_500_witness :
    (⟨Method.GET, ⟨"/%FF", none⟩⟩ : Request).method = Method.GET
    ∧ utf8DecodeStr (percentDecode (strBytes (stripQuery "/%FF"))) = none
    ∧ (local_path_for_request ⟨"/%FF", none⟩ "/srv" = .error .UriNotUtf8
      ∧ (serve HTML_TEMPLATE cjZero fsA ⟨8090, "/srv"⟩
          ⟨Method.GET, ⟨"/%FF", none⟩⟩).status = 500) :=
  ⟨rfl, rfl,
    c7_non_utf8_500 cjZero fsA ⟨8090, "/srv"⟩ ⟨Method.GET, ⟨"/%FF", none⟩⟩
      rfl rfl⟩

/-- C10: request handling is a pure function of the URI, the root directory
and the filesystem state: two filesystems that agree pointwise on directory
tests and file reads give the same resolved path and the same response, so
resolving the same URI twice against the same state is idempotent. -/
theorem c10_resolution_deterministic (tpl : String) (client_js : Nat → List Nat)
    (fs fs2 : FS) (config : Config) (req : Request)
    (hdir : ∀ p, fs.is_dir p = fs2.is_dir p)
    (hread : ∀ p, fs.read p = fs2.read p) :
    local_path_with_maybe_index fs req.uri config.root_dir =
      local_path_with_maybe_index fs2 req.uri config.root_dir
    ∧ serve tpl client_js fs config req = serve tpl client_js fs2 config req := by
  obtain ⟨d, r⟩ := fs
  obtain ⟨d2, r2⟩ := fs2
  have hd : d = d2 := funext hdir
  have hr : r = r2 := funext hread
  subst hd
  subst hr
  exact ⟨rfl, rfl⟩

/-- Witness for C10: the same concrete state on both sides. -/
theorem c10_resolution_deterministic_witness :
    (∀ p, fsB.is_dir p = fsB.is_dir p)
    ∧ (∀ p, fsB.read p = fsB.read p)
    ∧ (local_path_with_maybe_index fsB ⟨"/docs/", none⟩ "/srv" =
        local_path_with_maybe_index fsB ⟨"/docs/", none⟩ "/srv"
      ∧ serve HTML_TEMPLATE cjA fsB ⟨8090, "/srv"⟩ ⟨Method.GET, ⟨"/docs/", none⟩⟩ =
        serve HTML_TEMPLATE cjA fsB ⟨8090, "/srv"⟩ ⟨Method.GET, ⟨"/docs/", none⟩⟩) :=
  ⟨fun _ => rfl, fun _ => rfl,
    c10_resolution_deterministic HTML_TEMPLATE cjA fsB fsB ⟨8090, "/srv"⟩
      ⟨Method.GET, ⟨"/docs/", none⟩⟩ (fun _ => rfl) (fun _ => rfl)⟩

end HttpLiveReload
